import Mathlib

/-!
Verification of the CosplayAI frontend generation-orchestration logic.

The definitions below are a shallow embedding of the TypeScript source:
- `App.tsx` — the `GenerationState` record and its update handlers
  (`handleImageUpload`, `handleGenerationStart`, `handleGenerationComplete`,
  `handleGenerationError`, `resetGeneration`), and the `FormData` built for
  the provider submission;
- `components/PhotoUpload.tsx` — `handleFiles` (type/size validation) and
  the `disabled` guard on drop/change/click;
- `components/GenerationProgress.tsx` — the status-polling effect (interval
  every 2000 ms, timeout at 300000 ms, cleanup clearing both timers) and
  the simulated-progress effect;
- `components/CharacterSelection.tsx` — `fetchCharacters` with its embedded
  fallback character list.
-/

namespace CosplayAI

/-- Client-visible generation status, from the `GenerationState` interface in
`App.tsx` (`'idle' | 'uploading' | 'processing' | 'completed' | 'error'`).
Note the source has a single `error` status and no separate timed-out status. -/
inductive Status where
  | idle
  | uploading
  | processing
  | completed
  | error
deriving DecidableEq, Repr

/-- The `GenerationState` record of `App.tsx`. `progress` is a JS number,
embedded as a rational. -/
structure GenerationState where
  id : Option String
  status : Status
  progress : ℚ
  result : Option String := none
  error : Option String := none
deriving DecidableEq, Repr

/-- The initial `useState` value in `App.tsx`:
`{ id: null, status: 'idle', progress: 0 }`. -/
def initialState : GenerationState :=
  { id := none, status := .idle, progress := 0 }

/-- First update of `handleImageUpload`:
`setGenerationState(prev => ({ ...prev, status: 'uploading' }))`.
All other fields are spread from the previous state. -/
def submitSpread (s : GenerationState) : GenerationState :=
  { s with status := .uploading }

/-- `handleGenerationStart` in `App.tsx`. -/
def handleGenerationStart (s : GenerationState) (gid : String) : GenerationState :=
  { s with id := some gid, status := .processing, progress := 0 }

/-- `handleGenerationComplete` in `App.tsx`. -/
def handleGenerationComplete (s : GenerationState) (r : String) : GenerationState :=
  { s with status := .completed, progress := 100, result := some r }

/-- `handleGenerationError` in `App.tsx`; also the shape of the `catch`
branch of `handleImageUpload`, which sets
`{ ...prev, status: 'error', error: msg }`. -/
def handleGenerationError (s : GenerationState) (e : String) : GenerationState :=
  { s with status := .error, error := some e }

/-- `resetGeneration` in `App.tsx`. -/
def resetGeneration : GenerationState :=
  { id := none, status := .idle, progress := 0 }

/-! ## PhotoUpload: intake validation (`components/PhotoUpload.tsx`) -/

/-- The fields of the uploaded `File` inspected by `handleFiles`:
declared MIME type and byte size. -/
structure UploadFile where
  type : String
  size : Nat
deriving DecidableEq, Repr

/-- Outcome of `handleFiles` on a single file: a local type error, a local
size error, or acceptance (preview created and `onImageUpload` invoked). -/
inductive IntakeResult where
  | invalidType
  | tooLarge
  | accepted
deriving DecidableEq, Repr

/-- The size ceiling in `PhotoUpload.tsx`: `10 * 1024 * 1024`. -/
def maxUploadBytes : Nat := 10 * 1024 * 1024

/-- `file.type.startsWith('image/')`: the declared MIME type begins with the
characters `image/`. Stated over the character list of the string. -/
def isImageType (t : String) : Bool :=
  "image/".data.isPrefixOf t.data

/-- `handleFiles` validation in `PhotoUpload.tsx`: the MIME-type check
(`!file.type.startsWith('image/')`) runs first, then the size check
(`file.size > 10 * 1024 * 1024`). -/
def handleFiles (f : UploadFile) : IntakeResult :=
  if ¬ isImageType f.type then .invalidType
  else if f.size > maxUploadBytes then .tooLarge
  else .accepted

/-- The submit flow from the orchestrator's point of view: `handleFiles`
invokes `onImageUpload` (i.e. `handleImageUpload`, which moves the state to
`uploading` and issues the provider request) only when validation passes;
on a validation failure it sets a component-local error and returns, leaving
the `App` state untouched. The boolean records whether the provider network
call is issued. -/
def submitFlow (s : GenerationState) (f : UploadFile) : GenerationState × Bool :=
  match handleFiles f with
  | .accepted => (submitSpread s, true)
  | _ => (s, false)

/-- The `disabled` prop passed to `PhotoUpload` in `App.tsx`:
`generationState.status === 'processing'`. -/
def uploadDisabled (s : GenerationState) : Bool :=
  decide (s.status = .processing)

/-- `handleDrop` / `handleChange` / `handleClick` in `PhotoUpload.tsx` each
begin with `if (disabled) return;` before calling `handleFiles`. -/
def attemptSubmit (s : GenerationState) (f : UploadFile) : GenerationState × Bool :=
  if uploadDisabled s then (s, false) else submitFlow s f

/-! ## Provider submission request (`handleImageUpload` FormData) -/

/-- The `FormData` fields appended in `handleImageUpload`
(`App.tsx`): photo, character, style, quality — style and quality are the
literal constants `'anime'` and `'high'`. -/
def buildFormData (selectedCharacter : String) : List (String × String) :=
  [("photo", "photo.jpg"),
   ("character", selectedCharacter),
   ("style", "anime"),
   ("quality", "high")]

/-- Look up a field of the form data by key. -/
def formField (fd : List (String × String)) (k : String) : Option String :=
  (fd.find? (fun p => p.1 == k)).map Prod.snd

/-! ## Character catalog (`components/CharacterSelection.tsx`) -/

/-- The `Character` interface in `CharacterSelection.tsx`. -/
structure Character where
  id : String
  name : String
  style : String
  description : String
deriving DecidableEq, Repr

/-- The hardcoded fallback list in `fetchCharacters` (`CharacterSelection.tsx`),
used when the remote catalog fetch fails. -/
def defaultCharacters : List Character :=
  [⟨"sailor-moon", "Sailor Moon", "anime", "Classic anime magical girl"⟩,
   ⟨"wonder-woman", "Wonder Woman", "superhero", "Amazonian warrior princess"⟩,
   ⟨"dva", "D.Va", "gaming", "Professional gamer and mech pilot"⟩,
   ⟨"harley-quinn", "Harley Quinn", "comic", "Chaotic villain with jester costume"⟩,
   ⟨"zelda", "Princess Zelda", "fantasy", "Royal princess with magical powers"⟩,
   ⟨"power-girl", "Power Girl", "superhero", "Powerful superhero with classic costume"⟩,
   ⟨"2b", "2B", "gaming", "Android combat unit with elegant design"⟩,
   ⟨"mikasa", "Mikasa Ackerman", "anime", "Skilled soldier with military uniform"⟩,
   ⟨"catwoman", "Catwoman", "comic", "Feline-themed thief with sleek costume"⟩,
   ⟨"ahri", "Ahri", "gaming", "Nine-tailed fox spirit with magical attire"⟩]

/-- Outcome of the remote catalog fetch: a successful payload or any failure
(network error, non-ok response, malformed payload — all end in the `catch`). -/
inductive CatalogFetch where
  | ok (chars : List Character)
  | failure
deriving DecidableEq, Repr

/-- `fetchCharacters` in `CharacterSelection.tsx`: sets `characters` from the
remote payload on success, and to the hardcoded fallback list in the `catch`. -/
def fetchCharacters : CatalogFetch → List Character
  | .ok cs => cs
  | .failure => defaultCharacters

/-! ## Status poller (`components/GenerationProgress.tsx`, poll effect)

The effect starts `setInterval(..., 2000)` and `setTimeout(..., 300000)`.
Each interval tick fetches the generation status; a thrown error (network
failure, or the explicit `throw` on `!response.ok`) is caught and swallowed.
`data.status === 'completed'` invokes `onComplete` and clears the interval;
`data.status === 'failed'` invokes `onError` and clears the interval; the
timeout clears the interval and invokes `onError` with a timeout message.
The effect cleanup clears both the interval and the timeout. -/

/-- One poll tick's raw outcome: a network error, a non-ok HTTP response
(which throws and is caught), or a JSON payload with a `status` string and
an optional `result_url`. -/
inductive PollResponse where
  | netError
  | httpNotOk
  | ok (status : String) (resultUrl : Option String)
deriving DecidableEq, Repr

/-- A terminal callback invocation: `onComplete result` or `onError message`. -/
inductive TerminalOutcome where
  | complete (r : String)
  | err (e : String)
deriving DecidableEq, Repr

/-- The fallback result URL in the `onComplete` call. -/
def placeholderResult : String :=
  "https://via.placeholder.com/512x512/3b82f6/ffffff?text=Cosplay+Image"

/-- The `onError` message for an explicit provider `failed` status. -/
def failedMsg : String := "Generation failed. Please try again."

/-- The `onError` message issued by the 300000 ms timeout handler. -/
def timeoutMsg : String := "Generation timed out. Please try again."

/-- `data.result_url || placeholder`: JS `||` falls back on a missing field
and on the empty string (both falsy). -/
def resultOr (u : Option String) : String :=
  match u with
  | none => placeholderResult
  | some s => if s = "" then placeholderResult else s

/-- Processing of one tick's response, from the poll effect body: terminal
outcome if the payload status is `completed` or `failed`; otherwise (any
other status, a non-ok response, or a caught network error) the tick is
swallowed and the loop continues. -/
def pollStep : PollResponse → Option TerminalOutcome
  | .netError => none
  | .httpNotOk => none
  | .ok st ru =>
    if st = "completed" then some (.complete (resultOr ru))
    else if st = "failed" then some (.err failedMsg)
    else none

/-- The `setInterval` period: 2000 ms. -/
def pollIntervalMs : Nat := 2000

/-- The `setTimeout` delay: 300000 ms (5 minutes). -/
def pollTimeoutMs : Nat := 300000

/-- Number of interval ticks that fire no later than the timeout:
ticks fall at 2000, 4000, …; the tick due exactly at 300000 ms was
registered before the timeout and fires first. -/
def maxPollTicks : Nat := pollTimeoutMs / pollIntervalMs

/-- Result of running the poll loop to its stopping point: the time at which
it stops and the terminal callback it makes. -/
structure PollRun where
  stopTime : Nat
  outcome : TerminalOutcome
deriving DecidableEq, Repr

/-- Run the poll loop from tick index `k` with `n` ticks left before the
timeout budget is exhausted: a terminal tick stops the loop at its tick time;
when the budget runs out the timeout handler stops the loop at 300000 ms
with the timeout error. -/
def runPollerFrom (responses : Nat → PollResponse) (k : Nat) : Nat → PollRun
  | 0 => ⟨pollTimeoutMs, .err timeoutMsg⟩
  | n + 1 =>
    match pollStep (responses k) with
    | some o => ⟨pollIntervalMs * (k + 1), o⟩
    | none => runPollerFrom responses (k + 1) n

/-- Run the poll loop from its start against a stream of tick responses. -/
def runPoller (responses : Nat → PollResponse) : PollRun :=
  runPollerFrom responses 0 maxPollTicks

/-- Apply a terminal poll outcome to the `App` state through the callbacks
wired in `App.tsx`: `onComplete = handleGenerationComplete`,
`onError = handleGenerationError`. -/
def applyOutcome (s : GenerationState) : TerminalOutcome → GenerationState
  | .complete r => handleGenerationComplete s r
  | .err e => handleGenerationError s e

/-! ## Poller timer resources -/

/-- The timer resources owned by one mounted poll effect, plus the record of
terminal callbacks it has made. -/
structure EffectState where
  intervalActive : Bool
  timeoutActive : Bool
  terminalCalls : List TerminalOutcome
deriving DecidableEq, Repr

/-- Effect start: both timers acquired, no callback made yet. -/
def startEffect : EffectState := ⟨true, true, []⟩

/-- One interval tick on the effect state: a terminal payload clears the
interval and records the callback; anything else leaves the state as is. -/
def tickEffect (es : EffectState) (resp : PollResponse) : EffectState :=
  if es.intervalActive then
    match pollStep resp with
    | some o =>
      { es with intervalActive := false, terminalCalls := es.terminalCalls ++ [o] }
    | none => es
  else es

/-- The timeout handler: clears the interval and reports the timeout error. -/
def fireTimeout (es : EffectState) : EffectState :=
  if es.timeoutActive then
    { intervalActive := false, timeoutActive := false,
      terminalCalls := es.terminalCalls ++ [.err timeoutMsg] }
  else es

/-- The effect cleanup, run on unmount or dependency change (a cancelled or
reset generation): `clearInterval(pollInterval); clearTimeout(timeout)` —
and nothing else, in particular no terminal callback. -/
def cleanupEffect (es : EffectState) : EffectState :=
  { es with intervalActive := false, timeoutActive := false }

/-- The effect state after the first `n` interval ticks. -/
def runEffectTicks (responses : Nat → PollResponse) : Nat → EffectState
  | 0 => startEffect
  | n + 1 => tickEffect (runEffectTicks responses n) (responses n)

/-! ## Simulated progress (`components/GenerationProgress.tsx`, first effect)

`currentProgress` starts at 0; the `uploading` branch sets it to 10; the
`processing` branch sets it to 20 and then every second applies
`prev >= 90 ? prev : prev + Math.random() * 10`; the completed poll branch
sets it to 100. -/

/-- One simulated-progress update with random increment `r`
(`Math.random() * 10`, so `0 ≤ r < 10`). -/
def progressStep (p r : ℚ) : ℚ := if p ≥ 90 then p else p + r

/-- The sequence of `currentProgress` values over one generation lifecycle
before any terminal state: initial 0, then 10 (`uploading`), then 20
(`processing`) followed by the simulated increments. -/
def progressTrace (incs : List ℚ) : List ℚ :=
  0 :: 10 :: List.scanl progressStep 20 incs

/-- The progress sequence when the lifecycle ends in `completed`:
the poll branch sets `currentProgress` to 100. -/
def traceOnComplete (incs : List ℚ) : List ℚ :=
  progressTrace incs ++ [100]

/-- The progress sequence when the lifecycle ends in a failure or timeout:
no further progress update is made, the value is frozen at its last value. -/
def traceOnError (incs : List ℚ) : List ℚ :=
  progressTrace incs

/-! ## Reachable orchestrator states (`App.tsx` state transitions) -/

/-- One transition of the `App.tsx` generation state. `submit` is possible
whenever `PhotoUpload` is enabled (`status ≠ processing`); a provider accept
or submit failure follows an in-flight upload; poll outcomes arrive while
`processing` (the poll effect is mounted only then); `reset` is always
available from the UI paths that render the reset button. -/
inductive Step : GenerationState → GenerationState → Prop
  | submit (s : GenerationState) (h : s.status ≠ .processing) :
      Step s (submitSpread s)
  | accepted (s : GenerationState) (gid : String) (h : s.status = .uploading) :
      Step s (handleGenerationStart s gid)
  | submitFail (s : GenerationState) (h : s.status = .uploading) :
      Step s (handleGenerationError s "Failed to start generation")
  | pollComplete (s : GenerationState) (u : Option String) (h : s.status = .processing) :
      Step s (handleGenerationComplete s (resultOr u))
  | pollFail (s : GenerationState) (h : s.status = .processing) :
      Step s (handleGenerationError s failedMsg)
  | pollTimeout (s : GenerationState) (h : s.status = .processing) :
      Step s (handleGenerationError s timeoutMsg)
  | reset (s : GenerationState) : Step s resetGeneration

/-- States reachable from the initial `App.tsx` state. -/
inductive Reachable : GenerationState → Prop
  | init : Reachable initialState
  | step {s t : GenerationState} : Reachable s → Step s t → Reachable t

/-- A state with an upload in flight (submit issued from the initial state). -/
def uploadingState : GenerationState := submitSpread initialState

/-- A state whose submission the provider accepted with job id `abc123`. -/
def procState : GenerationState :=
  handleGenerationStart (submitSpread initialState) "abc123"

/-- A state whose generation completed with result `img://abc123`. -/
def completedState : GenerationState :=
  handleGenerationComplete procState (resultOr (some "img://abc123"))

/-- The state after a fresh submit from `completedState` without a reset:
`handleImageUpload` spreads the previous state, keeping its `result`. -/
def staleResultState : GenerationState := submitSpread completedState

/-! ## Helper lemmas -/

/-- The `onComplete` argument is never the empty string: a missing or empty
`result_url` falls back to the placeholder URL. -/
theorem resultOr_ne_empty (u : Option String) : resultOr u ≠ "" := by
  cases u with
  | none => simp [resultOr, placeholderResult]
  | some s =>
    simp only [resultOr]
    split
    · simp [placeholderResult]
    · assumption

/-- A response stream that never carries a terminal status drives the poll
loop all the way to the timeout handler. -/
theorem runPollerFrom_of_none (responses : Nat → PollResponse)
    (h : ∀ k, pollStep (responses k) = none) :
    ∀ n k, runPollerFrom responses k n = ⟨pollTimeoutMs, .err timeoutMsg⟩ := by
  intro n
  induction n with
  | zero => intro k; rfl
  | succ n ih =>
    intro k
    unfold runPollerFrom
    rw [h k]
    exact ih (k + 1)

/-- Ticks whose responses are all non-terminal leave the effect state at its
start value: interval live, timeout live, no callback made. -/
theorem runEffectTicks_of_none (responses : Nat → PollResponse) (n : Nat)
    (h : ∀ k, k < n → pollStep (responses k) = none) :
    runEffectTicks responses n = startEffect := by
  induction n with
  | zero => rfl
  | succ n ih =>
    have hn : runEffectTicks responses n = startEffect :=
      ih fun k hk => h k (Nat.lt_succ_of_lt hk)
    unfold runEffectTicks
    rw [hn]
    unfold tickEffect
    rw [h n (Nat.lt_succ_self n)]
    rfl

/-- `List.scanl` always begins with its initial value. -/
theorem head?_scanl (f : ℚ → ℚ → ℚ) (b : ℚ) (l : List ℚ) :
    (List.scanl f b l).head? = some b := by
  cases l <;> rfl

/-- One simulated-progress update never decreases the value, keeps it
nonnegative, and keeps it strictly below 100. -/
theorem progressStep_bounds {p r : ℚ} (hp0 : 0 ≤ p) (hp : p < 100)
    (hr0 : 0 ≤ r) (hr : r < 10) :
    p ≤ progressStep p r ∧ 0 ≤ progressStep p r ∧ progressStep p r < 100 := by
  unfold progressStep
  split
  · exact ⟨le_refl p, hp0, hp⟩
  · rename_i hlt
    push_neg at hlt
    exact ⟨by linarith, by linarith, by linarith⟩

/-- The simulated-progress scan from any start in `[0, 100)` with increments
in `[0, 10)` stays in `[0, 100)` and is non-decreasing. -/
theorem scanl_progress_ok (incs : List ℚ) :
    ∀ p : ℚ, 0 ≤ p → p < 100 → (∀ r ∈ incs, 0 ≤ r ∧ r < 10) →
      (∀ q ∈ List.scanl progressStep p incs, 0 ≤ q ∧ q < 100) ∧
      List.Chain' (· ≤ ·) (List.scanl progressStep p incs) := by
  induction incs with
  | nil =>
    intro p hp0 hp _
    constructor
    · intro q hq
      simp only [List.scanl, List.mem_singleton] at hq
      exact hq ▸ ⟨hp0, hp⟩
    · simp [List.scanl]
  | cons r rs ih =>
    intro p hp0 hp hall
    have hr := hall r (List.mem_cons_self r rs)
    have hstep := progressStep_bounds hp0 hp hr.1 hr.2
    have hrs : ∀ x ∈ rs, 0 ≤ x ∧ x < 10 :=
      fun x hx => hall x (List.mem_cons_of_mem r hx)
    have ihp := ih (progressStep p r) hstep.2.1 hstep.2.2 hrs
    constructor
    · intro q hq
      simp only [List.scanl, List.mem_cons] at hq
      rcases hq with hq | hq
      · exact hq ▸ ⟨hp0, hp⟩
      · exact ihp.1 q hq
    · show List.Chain' (· ≤ ·) (p :: List.scanl progressStep (progressStep p r) rs)
      rw [List.chain'_cons']
      refine ⟨?_, ihp.2⟩
      intro y hy
      rw [head?_scanl] at hy
      simp only [Option.mem_def, Option.some.injEq] at hy
      exact hy ▸ hstep.1

/-! ## Claims -/

/-- Claim C6 (confirmed): when the remote catalog fetch fails, the catalog
holds exactly the embedded default entries; the default list is non-empty,
has no duplicate ids, and covers each style category (anime, superhero,
gaming, comic, fantasy). -/
theorem C6_catalog_fallback :
    fetchCharacters .failure = defaultCharacters ∧
    defaultCharacters ≠ [] ∧
    (defaultCharacters.map (fun c => c.id)).Nodup ∧
    (∃ c ∈ defaultCharacters, c.style = "anime") ∧
    (∃ c ∈ defaultCharacters, c.style = "superhero") ∧
    (∃ c ∈ defaultCharacters, c.style = "gaming") ∧
    (∃ c ∈ defaultCharacters, c.style = "comic") ∧
    (∃ c ∈ defaultCharacters, c.style = "fantasy") := by
  refine ⟨rfl, by decide, by decide, by decide, by decide, by decide, by decide, by decide⟩

/-- Claim C7, counterexample: an asset of 10 MiB + 1 bytes with a non-image
MIME type gets `invalidType`, not `tooLarge` — the type check runs before
the size check, so "for all assets with byte size greater than 10 MiB,
validate returns TooLarge" is false. -/
theorem C7_counterexample :
    (⟨"text/plain", maxUploadBytes + 1⟩ : UploadFile).size > maxUploadBytes ∧
    handleFiles ⟨"text/plain", maxUploadBytes + 1⟩ = .invalidType ∧
    IntakeResult.invalidType ≠ IntakeResult.tooLarge := by
  decide

/-- Claim C7 (corrected): `handleFiles` checks the declared MIME type first;
a non-image type yields `invalidType` regardless of size, an image type
over 10 MiB yields `tooLarge`, and an image type within the ceiling is
accepted. -/
theorem C7_validate_cases (f : UploadFile) :
    (isImageType f.type = false → handleFiles f = .invalidType) ∧
    (isImageType f.type = true → maxUploadBytes < f.size →
      handleFiles f = .tooLarge) ∧
    (isImageType f.type = true → f.size ≤ maxUploadBytes →
      handleFiles f = .accepted) := by
  refine ⟨fun h1 => ?_, fun h1 h2 => ?_, fun h1 h2 => ?_⟩
  · simp [handleFiles, h1]
  · simp [handleFiles, h1, h2]
  · simp [handleFiles, h1, Nat.not_lt.mpr h2]

/-- Witness for C7: concrete files exercising each branch. -/
theorem C7_witness :
    handleFiles ⟨"image/png", 12 * 1024 * 1024⟩ = .tooLarge ∧
    handleFiles ⟨"image/jpeg", 5 * 1024 * 1024⟩ = .accepted ∧
    handleFiles ⟨"text/plain", 100⟩ = .invalidType :=
  ⟨(C7_validate_cases ⟨"image/png", 12 * 1024 * 1024⟩).2.1 (by decide) (by decide),
   (C7_validate_cases ⟨"image/jpeg", 5 * 1024 * 1024⟩).2.2 (by decide) (by decide),
   (C7_validate_cases ⟨"text/plain", 100⟩).1 (by decide)⟩

/-- Claim C1, counterexample: submitting a 12 MiB PNG from the idle state
leaves the orchestrator in `idle` with no error field set and makes no
network call — it does not transition to a failed state carrying the
validation error; the error stays local to the upload component. -/
theorem C1_counterexample :
    submitFlow initialState ⟨"image/png", 12 * 1024 * 1024⟩ = (initialState, false) ∧
    initialState.status = .idle ∧
    initialState.error = none := by
  decide

/-- Claim C1 (corrected): for every asset failing intake validation, no
network call is made to the provider and the orchestrator state is left
unchanged — it stays `idle` rather than transitioning to a failed state;
the validation error is only shown locally by the upload component. -/
theorem C1_invalid_no_network (s : GenerationState) (f : UploadFile)
    (h : handleFiles f ≠ .accepted) :
    submitFlow s f = (s, false) := by
  unfold submitFlow
  cases hf : handleFiles f with
  | accepted => exact absurd hf h
  | invalidType => rfl
  | tooLarge => rfl

/-- Witness for C1: a 12 MiB PNG submitted from idle. -/
theorem C1_witness :
    submitFlow initialState ⟨"image/png", 12 * 1024 * 1024⟩ = (initialState, false) :=
  C1_invalid_no_network initialState ⟨"image/png", 12 * 1024 * 1024⟩ (by decide)

/-- Claim C5, counterexample: with an upload in flight (`uploading`), the
upload widget is not disabled and a second submit goes through, issuing a
new provider call and overwriting the in-flight request. -/
theorem C5_counterexample :
    uploadingState.status = .uploading ∧
    uploadDisabled uploadingState = false ∧
    attemptSubmit uploadingState ⟨"image/jpeg", 1000⟩ =
      (submitSpread uploadingState, true) := by
  decide

/-- Claim C5 (corrected): a submit attempted while `processing` is rejected
as a no-op (the upload widget is disabled), but a submit while `uploading`
is not rejected: a valid file proceeds and silently overwrites the
in-flight request with a new provider call. -/
theorem C5_submit_guard (s : GenerationState) (f : UploadFile) :
    (s.status = .processing → attemptSubmit s f = (s, false)) ∧
    (s.status = .uploading → handleFiles f = .accepted →
      attemptSubmit s f = (submitSpread s, true)) := by
  constructor
  · intro h
    simp [attemptSubmit, uploadDisabled, h]
  · intro h hacc
    simp [attemptSubmit, uploadDisabled, h, submitFlow, hacc]

/-- Witness for C5: the guard at a processing state and at an uploading state. -/
theorem C5_witness :
    attemptSubmit procState ⟨"image/jpeg", 1000⟩ = (procState, false) ∧
    attemptSubmit uploadingState ⟨"image/jpeg", 1000⟩ =
      (submitSpread uploadingState, true) :=
  ⟨(C5_submit_guard procState ⟨"image/jpeg", 1000⟩).1 rfl,
   (C5_submit_guard uploadingState ⟨"image/jpeg", 1000⟩).2 rfl (by decide)⟩

/-- Claim C2, counterexample: with a provider stub that never reports a
terminal status the poll loop ends in the timeout outcome, and with a stub
that reports `failed` it ends in the provider-failure outcome — but applying
the two outcomes to a processing state yields the same client-visible
status: both surface as `error`, so the timeout outcome is not a terminal
state distinct from the provider-failure outcome in the lifecycle. -/
theorem C2_counterexample :
    (runPoller (fun _ => .ok "processing" none)).outcome = .err timeoutMsg ∧
    (runPoller (fun _ => .ok "failed" none)).outcome = .err failedMsg ∧
    (applyOutcome procState (runPoller (fun _ => .ok "processing" none)).outcome).status =
      (applyOutcome procState (runPoller (fun _ => .ok "failed" none)).outcome).status := by
  have h1 : runPoller (fun _ => .ok "processing" none) =
      ⟨pollTimeoutMs, .err timeoutMsg⟩ :=
    runPollerFrom_of_none (fun _ => .ok "processing" none) (fun _ => rfl)
      maxPollTicks 0
  have h2 : runPoller (fun _ => .ok "failed" none) =
      ⟨pollIntervalMs * 1, .err failedMsg⟩ := rfl
  rw [h1, h2]
  exact ⟨rfl, rfl, rfl⟩

/-- Claim C2 (corrected): when the poller never receives a terminal provider
status it stops exactly at the 300000 ms timeout boundary and reports a
timeout outcome through `onError`, with a message distinct from the
provider-failure message; but the client-visible lifecycle has no separate
timed-out status — the outcome lands in the same `error` status as a
provider failure, distinguishable only by the error message. -/
theorem C2_timeout_boundary (responses : Nat → PollResponse)
    (h : ∀ k, pollStep (responses k) = none) (s : GenerationState) :
    runPoller responses = ⟨300000, .err timeoutMsg⟩ ∧
    timeoutMsg ≠ failedMsg ∧
    (applyOutcome s (runPoller responses).outcome).status = .error ∧
    (applyOutcome s (runPoller responses).outcome).error = some timeoutMsg := by
  have h1 : runPoller responses = ⟨pollTimeoutMs, .err timeoutMsg⟩ :=
    runPollerFrom_of_none responses h maxPollTicks 0
  rw [h1]
  exact ⟨rfl, by decide, rfl, rfl⟩

/-- Witness for C2: a stub answering every poll with a network error. -/
theorem C2_witness :
    runPoller (fun _ => .netError) = ⟨300000, .err timeoutMsg⟩ ∧
    timeoutMsg ≠ failedMsg ∧
    (applyOutcome procState (runPoller (fun _ => .netError)).outcome).status = .error ∧
    (applyOutcome procState (runPoller (fun _ => .netError)).outcome).error =
      some timeoutMsg :=
  C2_timeout_boundary (fun _ => .netError) (fun _ => rfl) procState

/-- Claim C3, counterexample: after a completed generation, submitting a new
photo without a reset is allowed (the widget is only disabled while
`processing`) and spreads the previous state — reaching a state whose
status is `uploading` while `result` is still present, so "result is
present iff status is Completed" fails. -/
theorem C3_counterexample :
    Reachable staleResultState ∧
    staleResultState.status = .uploading ∧
    staleResultState.result = some "img://abc123" := by
  refine ⟨?_, rfl, by decide⟩
  exact Reachable.step
    (Reachable.step
      (Reachable.step
        (Reachable.step Reachable.init (Step.submit initialState (by decide)))
        (Step.accepted uploadingState "abc123" rfl))
      (Step.pollComplete procState (some "img://abc123") rfl))
    (Step.submit completedState (by decide))

/-- Claim C3 (corrected): in every reachable state, `Completed` implies a
present, non-empty `result`, and the `error` status (the code's single
terminal failure status, covering both provider failure and timeout)
implies a present, non-empty `error`; the converse directions fail because
a new submit from a terminal state preserves the stale fields. -/
theorem C3_terminal_fields (s : GenerationState) (h : Reachable s) :
    (s.status = .completed → s.result ≠ none ∧ s.result ≠ some "") ∧
    (s.status = .error → s.error ≠ none ∧ s.error ≠ some "") := by
  induction h with
  | init =>
    exact ⟨fun hc => by simp [initialState] at hc,
           fun hc => by simp [initialState] at hc⟩
  | step h1 h2 ih =>
    cases h2 with
    | submit h =>
      exact ⟨fun hc => by simp [submitSpread] at hc,
             fun hc => by simp [submitSpread] at hc⟩
    | accepted gid h =>
      exact ⟨fun hc => by simp [handleGenerationStart] at hc,
             fun hc => by simp [handleGenerationStart] at hc⟩
    | submitFail h =>
      refine ⟨fun hc => by simp [handleGenerationError] at hc, fun _ => ⟨?_, ?_⟩⟩
      · simp [handleGenerationError]
      · simp [handleGenerationError]
    | pollComplete u h =>
      refine ⟨fun _ => ⟨?_, ?_⟩, fun hc => by simp [handleGenerationComplete] at hc⟩
      · simp [handleGenerationComplete]
      · simp [handleGenerationComplete]
        exact resultOr_ne_empty u
    | pollFail h =>
      refine ⟨fun hc => by simp [handleGenerationError] at hc, fun _ => ⟨?_, ?_⟩⟩
      · simp [handleGenerationError]
      · simp [handleGenerationError, failedMsg]
    | pollTimeout h =>
      refine ⟨fun hc => by simp [handleGenerationError] at hc, fun _ => ⟨?_, ?_⟩⟩
      · simp [handleGenerationError]
      · simp [handleGenerationError, timeoutMsg]
    | reset =>
      exact ⟨fun hc => by simp [resetGeneration] at hc,
             fun hc => by simp [resetGeneration] at hc⟩

/-- Witness for C3: the reachable completed state has a present, non-empty
result. -/
theorem C3_witness :
    completedState.status = .completed ∧
    completedState.result ≠ none ∧ completedState.result ≠ some "" := by
  have hreach : Reachable completedState :=
    Reachable.step
      (Reachable.step
        (Reachable.step Reachable.init (Step.submit initialState (by decide)))
        (Step.accepted uploadingState "abc123" rfl))
      (Step.pollComplete procState (some "img://abc123") rfl)
  exact ⟨rfl, (C3_terminal_fields completedState hreach).1 rfl⟩

/-- Claim C4 (confirmed): a transient status-query failure — a network error
or a non-ok response (which throws and is caught) — is swallowed: the tick
produces no terminal outcome, the effect state is unchanged (the interval
keeps running, no provider-failure callback is made), and the poll loop
proceeds to the next tick, bounded only by the timeout budget. -/
theorem C4_transient_swallowed (es : EffectState) (resp : PollResponse)
    (responses : Nat → PollResponse) (k n : Nat)
    (h : resp = .netError ∨ resp = .httpNotOk)
    (h2 : pollStep (responses k) = none) :
    pollStep resp = none ∧
    tickEffect es resp = es ∧
    runPollerFrom responses k (n + 1) = runPollerFrom responses (k + 1) n := by
  have hnone : pollStep resp = none := by
    rcases h with h | h <;> rw [h] <;> rfl
  refine ⟨hnone, ?_, ?_⟩
  · unfold tickEffect
    rw [hnone]
    split <;> rfl
  · have hu : runPollerFrom responses k (n + 1) =
        match pollStep (responses k) with
        | some o => ⟨pollIntervalMs * (k + 1), o⟩
        | none => runPollerFrom responses (k + 1) n := rfl
    rw [hu, h2]

/-- Witness for C4: a network-error tick against the fresh effect state and
a non-ok-response stream. -/
theorem C4_witness :
    pollStep .netError = none ∧
    tickEffect startEffect .netError = startEffect ∧
    runPollerFrom (fun _ => .httpNotOk) 0 (2 + 1) =
      runPollerFrom (fun _ => .httpNotOk) 1 2 :=
  C4_transient_swallowed startEffect .netError (fun _ => .httpNotOk) 0 2
    (Or.inl rfl) rfl

/-- Claim C8 (confirmed): the effect cleanup — run when the owning
generation request becomes inactive (stop, cancel, or reset) — releases
both timer resources and makes no terminal callback of its own; in
particular a poller cancelled after any number of non-terminal ticks ends
with both timers released and no `onTerminal` invocation ever made. -/
theorem C8_timers_released (responses : Nat → PollResponse) (n : Nat)
    (es : EffectState)
    (h : ∀ k, k < n → pollStep (responses k) = none) :
    (cleanupEffect es).intervalActive = false ∧
    (cleanupEffect es).timeoutActive = false ∧
    (cleanupEffect es).terminalCalls = es.terminalCalls ∧
    (cleanupEffect (runEffectTicks responses n)).intervalActive = false ∧
    (cleanupEffect (runEffectTicks responses n)).timeoutActive = false ∧
    (cleanupEffect (runEffectTicks responses n)).terminalCalls = [] := by
  have hrun : runEffectTicks responses n = startEffect :=
    runEffectTicks_of_none responses n h
  rw [hrun]
  exact ⟨rfl, rfl, rfl, rfl, rfl, rfl⟩

/-- Witness for C8: cancelling after three non-terminal (processing) ticks. -/
theorem C8_witness :
    (cleanupEffect startEffect).intervalActive = false ∧
    (cleanupEffect startEffect).timeoutActive = false ∧
    (cleanupEffect startEffect).terminalCalls = startEffect.terminalCalls ∧
    (cleanupEffect (runEffectTicks (fun _ => .ok "processing" none) 3)).intervalActive = false ∧
    (cleanupEffect (runEffectTicks (fun _ => .ok "processing" none) 3)).timeoutActive = false ∧
    (cleanupEffect (runEffectTicks (fun _ => .ok "processing" none) 3)).terminalCalls = [] :=
  C8_timers_released (fun _ => .ok "processing" none) 3 startEffect
    (fun _ _ => rfl)

/-- Claim C9 (confirmed): over one generation lifecycle the progress value
stays in `[0, 100]` and is non-decreasing; on a completed terminal it is
set to exactly 100 (still in range and non-decreasing), and on a failure
or timeout terminal it is frozen at its last value (the trace simply
ends). -/
theorem C9_progress_monotone (incs : List ℚ)
    (h : ∀ r ∈ incs, 0 ≤ r ∧ r < 10) :
    (∀ p ∈ traceOnComplete incs, 0 ≤ p ∧ p ≤ 100) ∧
    List.Chain' (· ≤ ·) (traceOnComplete incs) ∧
    (traceOnComplete incs).getLast? = some 100 ∧
    (∀ p ∈ traceOnError incs, 0 ≤ p ∧ p ≤ 100) ∧
    List.Chain' (· ≤ ·) (traceOnError incs) := by
  have hscan := scanl_progress_ok incs 20 (by norm_num) (by norm_num) h
  have htrace_mem : ∀ p ∈ progressTrace incs, 0 ≤ p ∧ p < 100 := by
    intro p hp
    simp only [progressTrace, List.mem_cons] at hp
    rcases hp with hp | hp | hp
    · rw [hp]; exact ⟨le_refl 0, by norm_num⟩
    · rw [hp]; exact ⟨by norm_num, by norm_num⟩
    · exact hscan.1 p hp
  have htrace_chain : List.Chain' (· ≤ ·) (progressTrace incs) := by
    unfold progressTrace
    rw [List.chain'_cons']
    refine ⟨?_, ?_⟩
    · intro y hy
      simp only [List.head?_cons, Option.mem_def, Option.some.injEq] at hy
      rw [← hy]
      norm_num
    rw [List.chain'_cons']
    refine ⟨?_, hscan.2⟩
    intro y hy
    rw [head?_scanl] at hy
    simp only [Option.mem_def, Option.some.injEq] at hy
    rw [← hy]
    norm_num
  refine ⟨?_, ?_, ?_, fun p hp => ⟨(htrace_mem p hp).1, le_of_lt (htrace_mem p hp).2⟩,
          htrace_chain⟩
  · intro p hp
    unfold traceOnComplete at hp
    rcases List.mem_append.mp hp with hp | hp
    · exact ⟨(htrace_mem p hp).1, le_of_lt (htrace_mem p hp).2⟩
    · simp only [List.mem_singleton] at hp
      rw [hp]
      exact ⟨by norm_num, le_refl 100⟩
  · unfold traceOnComplete
    rw [List.chain'_append]
    refine ⟨htrace_chain, List.chain'_singleton 100, ?_⟩
    intro x hx y hy
    simp only [List.head?_cons, Option.mem_def, Option.some.injEq] at hy
    have hmem := List.mem_of_mem_getLast? hx
    rw [← hy]
    exact le_of_lt (htrace_mem x hmem).2
  · exact List.getLast?_concat _

/-- Witness for C9: a lifecycle with increments 5, 7, 3 ending in completed
and one ending frozen. -/
theorem C9_witness :
    List.Chain' (· ≤ ·) (traceOnComplete [(5 : ℚ), 7, 3]) ∧
    (traceOnComplete [(5 : ℚ), 7, 3]).getLast? = some 100 ∧
    List.Chain' (· ≤ ·) (traceOnError [(5 : ℚ), 7, 3]) :=
  ⟨(C9_progress_monotone [5, 7, 3] (by norm_num)).2.1,
   (C9_progress_monotone [5, 7, 3] (by norm_num)).2.2.1,
   (C9_progress_monotone [5, 7, 3] (by norm_num)).2.2.2.2⟩

/-- Claim C10 (confirmed): every provider submission carries the constants
`style = "anime"` and `quality = "high"`, independent of the selected
character — any two submissions carry identical style and quality fields. -/
theorem C10_fixed_style_quality (c₁ c₂ : String) :
    formField (buildFormData c₁) "style" = some "anime" ∧
    formField (buildFormData c₁) "quality" = some "high" ∧
    formField (buildFormData c₁) "style" = formField (buildFormData c₂) "style" ∧
    formField (buildFormData c₁) "quality" = formField (buildFormData c₂) "quality" := by
  refine ⟨rfl, rfl, rfl, rfl⟩

end CosplayAI
